import Mathlib

/-!
Shallow embedding of `backend/server.py` from the `cfc1` repository: a
questionnaire-scoring service with MongoDB persistence, an admin login,
a newest-first listing endpoint and an Excel export.

Modelling conventions:
* Python `int` is `Int`; Python `str` is `String`.
* A MongoDB document is a record of `Option`-typed fields (a key may be
  absent from a document); the services write documents with every field
  present.  `dict.get(k, '')` is `Option.getD`.
* The database is a pair of collections (lists of documents); an insert
  appends to the corresponding list.  The read query
  `find().sort("timestamp", -1).to_list(10000)` is modelled as sorting the
  collection by the stored timestamp value descending (MongoDB compares the
  stored ISO strings; an absent key sorts below every string) and taking
  the first 10000 documents.
* `datetime` values stamped by the code always carry `timezone.utc`, so a
  datetime is modelled by its calendar/clock fields; `isoformat` and
  `fromisoformat` are modelled character-for-character on the grammar the
  writer emits (the Python parser accepts a superset of this grammar, but
  the claims only exercise it on written-back values and on the empty
  string, which both model and library reject).
* Pydantic request validation ("missing or mistyped required field" maps
  to HTTP 422) is modelled by parsing a raw payload whose fields are
  `Option`-typed: a mistyped field is rejected by pydantic exactly like a
  missing one, so both are rendered as `none`.
* FastAPI handler outcomes are `ApiResult`: `ok` (HTTP 200 with a body) or
  `err` (an `HTTPException`-style status code and detail).
-/

/-- Python `class Answer(BaseModel)`: one questionnaire answer. -/
structure Answer where
  question_id : Int
  value : Int
deriving Repr, DecidableEq

/-- Python `class AssessmentSubmission(BaseModel)`: the validated POST body of
`/api/assessments`. -/
structure AssessmentSubmission where
  name : String
  age : String
  gender : String
  date : String
  mobile : String
  answers : List Answer
deriving Repr, DecidableEq

/-- A UTC instant as Python `datetime` stores it (the code only ever stamps
`datetime.now(timezone.utc)`, so the offset is fixed at +00:00). -/
structure DateTime where
  year : Nat
  month : Nat
  day : Nat
  hour : Nat
  minute : Nat
  second : Nat
  microsecond : Nat
deriving Repr, DecidableEq

/-- Python `class Assessment(BaseModel)`: the persisted/returned assessment record. -/
structure Assessment where
  id : String
  name : String
  age : String
  gender : String
  date : String
  mobile : String
  answers : List Answer
  score : Int
  result : String
  timestamp : DateTime
deriving Repr, DecidableEq

/-- Python `class ContactRequest(BaseModel)`: the persisted/returned contact record. -/
structure ContactRequest where
  id : String
  name : String
  mobile : String
  email : Option String
  message : String
  timestamp : DateTime
deriving Repr, DecidableEq

/-- Python `class ContactRequestCreate(BaseModel)`: the validated POST body of
`/api/contact-requests`. -/
structure ContactRequestCreate where
  name : String
  mobile : String
  email : Option String
  message : String
deriving Repr, DecidableEq

/-- Python `class AdminLogin(BaseModel)`. -/
structure AdminLogin where
  username : String
  password : String
deriving Repr, DecidableEq

/-- Python `class AdminLoginResponse(BaseModel)`. -/
structure AdminLoginResponse where
  success : Bool
  message : String
deriving Repr, DecidableEq

/-- Constant `ADMIN_USERNAME = "admin_kamch"`. -/
def ADMIN_USERNAME : String := "admin_kamch"

/-- Constant `ADMIN_PASSWORD = "admin_kamch123"`. -/
def ADMIN_PASSWORD : String := "admin_kamch123"

/-- Function `calculate_score_and_result(answers)`: `total_score = sum(answer.value
for answer in answers)` followed by the threshold chain on 28 and 42. -/
def calculate_score_and_result (answers : List Answer) : Int × String :=
  let total_score := answers.foldl (fun acc answer => acc + answer.value) 0
  let result :=
    if total_score ≤ 28 then "Ama not present"
    else if total_score ≤ 42 then "Ama slightly present"
    else "Ama Present"
  (total_score, result)

/-! ### ISO-format serialization of timestamps

`doc['timestamp'] = doc['timestamp'].isoformat()` on the write side and
`datetime.fromisoformat(...)` on the read side. -/

/-- The ASCII digit character for `d` (`d ≤ 9`). -/
def decDigit (d : Nat) : Char := Char.ofNat (48 + d)

/-- Fixed-width zero-padded decimal rendering, most significant digit
first, as `%0wd` formatting produces for numbers that fit in `w` digits. -/
def padDigits : Nat → Nat → List Char
  | 0, _ => []
  | w + 1, k => decDigit (k / 10 ^ w) :: padDigits w (k % 10 ^ w)

/-- The characters of the `+00:00` UTC offset suffix. -/
def offsetChars : List Char := ['+', '0', '0', ':', '0', '0']

/-- Python `datetime.isoformat()` on an aware UTC datetime:
`YYYY-MM-DDTHH:MM:SS[.ffffff]+00:00`, the fractional part omitted when the
microsecond field is zero. -/
def isoformat (t : DateTime) : String :=
  ⟨padDigits 4 t.year ++ '-' :: padDigits 2 t.month ++ '-' :: padDigits 2 t.day ++
    'T' :: padDigits 2 t.hour ++ ':' :: padDigits 2 t.minute ++ ':' :: padDigits 2 t.second ++
    (if t.microsecond = 0 then [] else '.' :: padDigits 6 t.microsecond) ++
    offsetChars⟩

/-- Numeric value of an ASCII digit character, `none` on a non-digit. -/
def parseDigit (c : Char) : Option Nat :=
  if 48 ≤ c.toNat ∧ c.toNat ≤ 57 then some (c.toNat - 48) else none

/-- Read exactly `w` digit characters into a number (accumulator form). -/
def parseFixed (acc : Nat) : Nat → List Char → Option (Nat × List Char)
  | 0, cs => some (acc, cs)
  | _ + 1, [] => none
  | w + 1, c :: cs =>
    match parseDigit c with
    | some d => parseFixed (acc * 10 + d) w cs
    | none => none

/-- Consume one expected separator character. -/
def expectChar (c : Char) : List Char → Option (List Char)
  | x :: xs => if x = c then some xs else none
  | [] => none

/-- The tail of the grammar after the seconds field: an optional
`.ffffff` fraction followed by the `+00:00` offset. -/
def parseFraction (cs : List Char) : Option Nat :=
  if cs = offsetChars then some 0
  else
    match cs with
    | '.' :: rest =>
      match parseFixed 0 6 rest with
      | some (us, rem) => if rem = offsetChars then some us else none
      | none => none
    | _ => none

/-- Python `datetime.fromisoformat` restricted to the grammar `isoformat` emits
(the library accepts more formats; on written-back strings and on the
empty string it agrees with this model). -/
def fromisoformat (s : String) : Option DateTime :=
  (parseFixed 0 4 s.data).bind fun p0 =>
  (expectChar '-' p0.2).bind fun r1 =>
  (parseFixed 0 2 r1).bind fun p1 =>
  (expectChar '-' p1.2).bind fun r2 =>
  (parseFixed 0 2 r2).bind fun p2 =>
  (expectChar 'T' p2.2).bind fun r3 =>
  (parseFixed 0 2 r3).bind fun p3 =>
  (expectChar ':' p3.2).bind fun r4 =>
  (parseFixed 0 2 r4).bind fun p4 =>
  (expectChar ':' p4.2).bind fun r5 =>
  (parseFixed 0 2 r5).bind fun p5 =>
  (parseFraction p5.2).map fun us =>
    ⟨p0.1, p1.1, p2.1, p3.1, p4.1, p5.1, us⟩

/-- Formatting `timestamp.strftime('%Y-%m-%d %H:%M:%S')` as used by the export. -/
def strftimeYmdHMS (t : DateTime) : String :=
  ⟨padDigits 4 t.year ++ '-' :: padDigits 2 t.month ++ '-' :: padDigits 2 t.day ++
    ' ' :: padDigits 2 t.hour ++ ':' :: padDigits 2 t.minute ++ ':' :: padDigits 2 t.second⟩

/-! ### Documents and the record store -/

/-- A MongoDB document in the `assessments` collection: the field-mapping
written by `create_assessment` (`assessment.model_dump()` with the
timestamp replaced by its ISO string).  Every field is optional because a
raw document may lack any key; the service always writes all of them. -/
structure AssessmentDoc where
  id : Option String
  name : Option String
  age : Option String
  gender : Option String
  date : Option String
  mobile : Option String
  answers : Option (List Answer)
  score : Option Int
  result : Option String
  timestamp : Option String
deriving Repr, DecidableEq

/-- A MongoDB document in the `contact_requests` collection. -/
structure ContactDoc where
  id : Option String
  name : Option String
  mobile : Option String
  email : Option String
  message : Option String
  timestamp : Option String
deriving Repr, DecidableEq

/-- The database `db`: its two collections. -/
structure DB where
  assessments : List AssessmentDoc
  contact_requests : List ContactDoc
deriving Repr, DecidableEq

/-- BSON comparison on an optional string sort key: an absent (null) key
sorts below every string, strings compare lexicographically. -/
def optStrLe : Option String → Option String → Prop
  | none, _ => True
  | some _, none => False
  | some a, some b => a ≤ b

instance instDecOptStrLe : DecidableRel optStrLe := fun x y =>
  match x, y with
  | none, _ => isTrue trivial
  | some _, none => isFalse (fun h => h)
  | some a, some b => inferInstanceAs (Decidable (a ≤ b))

/-- The `sort("timestamp", -1)` comparison between two assessment documents:
`a` precedes `b` when `a`'s stored timestamp is at least `b`'s. -/
def tsGe (a b : AssessmentDoc) : Prop := optStrLe b.timestamp a.timestamp

instance instDecTsGe : DecidableRel tsGe := fun a b =>
  instDecOptStrLe b.timestamp a.timestamp

theorem optStrLe_total (x y : Option String) : optStrLe x y ∨ optStrLe y x :=
  match x, y with
  | none, _ => Or.inl trivial
  | some _, none => Or.inr trivial
  | some a, some b => le_total a b

theorem optStrLe_trans (x y z : Option String)
    (hxy : optStrLe x y) (hyz : optStrLe y z) : optStrLe x z :=
  match x, y, z with
  | none, _, _ => trivial
  | some _, none, _ => hxy.elim
  | some _, some _, none => hyz.elim
  | some _, some _, some _ => le_trans hxy hyz

instance : IsTotal AssessmentDoc tsGe where
  total a b := optStrLe_total b.timestamp a.timestamp

instance : IsTrans AssessmentDoc tsGe where
  trans a b c hab hbc := optStrLe_trans c.timestamp b.timestamp a.timestamp hbc hab

/-- Query `db.assessments.find({}, {"_id": 0}).sort("timestamp", -1).to_list(10000)`:
the collection sorted by stored timestamp descending, first 10000 documents. -/
def fetchSortedAssessments (db : DB) : List AssessmentDoc :=
  (List.insertionSort tsGe db.assessments).take 10000

/-! ### Request validation and handlers -/

/-- A raw answer object inside an incoming JSON payload.  A field that is
missing, or whose value pydantic rejects as mistyped, is `none`. -/
structure RawAnswer where
  question_id : Option Int
  value : Option Int
deriving Repr, DecidableEq

/-- A raw `/api/assessments` POST payload before pydantic validation. -/
structure RawSubmission where
  name : Option String
  age : Option String
  gender : Option String
  date : Option String
  mobile : Option String
  answers : Option (List RawAnswer)
deriving Repr, DecidableEq

/-- A raw `/api/contact-requests` POST payload before pydantic validation. -/
structure RawContact where
  name : Option String
  mobile : Option String
  email : Option String
  message : Option String
deriving Repr, DecidableEq

/-- An `Option`-valued traversal of a list (pydantic validates every element;
one failure fails the whole payload). -/
def optMapM (f : α → Option β) : List α → Option (List β)
  | [] => some []
  | x :: xs =>
    match f x, optMapM f xs with
    | some y, some ys => some (y :: ys)
    | _, _ => none

/-- Pydantic validation of one `Answer`. -/
def parseAnswer (a : RawAnswer) : Option Answer :=
  match a.question_id, a.value with
  | some q, some v => some ⟨q, v⟩
  | _, _ => none

/-- Pydantic validation of `AssessmentSubmission`: every required field
present and well typed. -/
def parseSubmission (r : RawSubmission) : Option AssessmentSubmission :=
  match r.name, r.age, r.gender, r.date, r.mobile, r.answers with
  | some n, some a, some g, some d, some m, some ans =>
    (optMapM parseAnswer ans).map (fun answers => ⟨n, a, g, d, m, answers⟩)
  | _, _, _, _, _, _ => none

/-- Pydantic validation of `ContactRequestCreate`: `name`, `mobile` and
`message` required; `email` optional. -/
def parseContact (r : RawContact) : Option ContactRequestCreate :=
  match r.name, r.mobile, r.message with
  | some n, some m, some msg => some ⟨n, m, r.email, msg⟩
  | _, _, _ => none

/-- The outcome of a request: HTTP 200 with a body, or an
`HTTPException`-style status code with a detail message. -/
inductive ApiResult (α : Type) where
  | ok (body : α)
  | err (status : Nat) (detail : String)
deriving Repr, DecidableEq

/-- The document `create_assessment` inserts: `assessment.model_dump()`
with `doc['timestamp'] = doc['timestamp'].isoformat()`. -/
def assessmentDocOf (a : Assessment) : AssessmentDoc :=
  ⟨some a.id, some a.name, some a.age, some a.gender, some a.date,
    some a.mobile, some a.answers, some a.score, some a.result,
    some (isoformat a.timestamp)⟩

/-- Handler `create_assessment(submission)` after validation: compute score and
result, build the `Assessment` (with the server-generated `uuid4` id and
`datetime.now(timezone.utc)` timestamp, which pydantic default-factories
supply — the submission carries neither field), insert one document into
`assessments`, return the record.  `freshId` and `now` stand for the two
server-side generators. -/
def create_assessment (submission : AssessmentSubmission) (freshId : String)
    (now : DateTime) (db : DB) : Assessment × DB :=
  let sr := calculate_score_and_result submission.answers
  let assessment : Assessment :=
    ⟨freshId, submission.name, submission.age, submission.gender,
      submission.date, submission.mobile, submission.answers,
      sr.1, sr.2, now⟩
  (assessment, ⟨db.assessments ++ [assessmentDocOf assessment], db.contact_requests⟩)

/-- The `POST /api/assessments` endpoint including framework validation:
a payload that fails validation is answered with HTTP 422 and the handler
never runs (so nothing is written). -/
def handleCreateAssessment (raw : RawSubmission) (freshId : String)
    (now : DateTime) (db : DB) : ApiResult Assessment × DB :=
  match parseSubmission raw with
  | none => (ApiResult.err 422 "validation error", db)
  | some submission =>
    let r := create_assessment submission freshId now db
    (ApiResult.ok r.1, r.2)

/-- The document `create_contact_request` inserts. -/
def contactDocOf (c : ContactRequest) : ContactDoc :=
  ⟨some c.id, some c.name, some c.mobile, c.email, some c.message,
    some (isoformat c.timestamp)⟩

/-- Handler `create_contact_request(request)` after validation: build the
`ContactRequest` (server-generated id and timestamp), insert one document
into `contact_requests`, return the record. -/
def create_contact_request (request : ContactRequestCreate) (freshId : String)
    (now : DateTime) (db : DB) : ContactRequest × DB :=
  let contact_req : ContactRequest :=
    ⟨freshId, request.name, request.mobile, request.email, request.message, now⟩
  (contact_req, ⟨db.assessments, db.contact_requests ++ [contactDocOf contact_req]⟩)

/-- The `POST /api/contact-requests` endpoint including framework
validation. -/
def handleCreateContact (raw : RawContact) (freshId : String)
    (now : DateTime) (db : DB) : ApiResult ContactRequest × DB :=
  match parseContact raw with
  | none => (ApiResult.err 422 "validation error", db)
  | some request =>
    let r := create_contact_request request freshId now db
    (ApiResult.ok r.1, r.2)

/-- Handler `admin_login(login)`: exact plaintext comparison against the fixed
credentials; mismatch raises `HTTPException(status_code=401, ...)`. -/
def admin_login (login : AdminLogin) : ApiResult AdminLoginResponse :=
  if login.username = ADMIN_USERNAME ∧ login.password = ADMIN_PASSWORD then
    ApiResult.ok ⟨true, "Login successful"⟩
  else
    ApiResult.err 401 "Invalid credentials"

/-! ### Admin read endpoints -/

/-- Turning a fetched document back into an `Assessment` for the
`response_model=List[Assessment]` endpoint: the handler replaces the ISO
string timestamp by `datetime.fromisoformat(...)` and FastAPI validates
the document against the `Assessment` model (a missing field or an
unparseable timestamp makes the request fail, which `none` models). -/
def docToAssessment (d : AssessmentDoc) : Option Assessment :=
  match d.id, d.name, d.age, d.gender, d.date, d.mobile, d.answers,
      d.score, d.result, d.timestamp with
  | some i, some n, some a, some g, some dt, some m, some ans,
      some sc, some res, some ts =>
    (fromisoformat ts).map (fun t => ⟨i, n, a, g, dt, m, ans, sc, res, t⟩)
  | _, _, _, _, _, _, _, _, _, _ => none

/-- Endpoint `GET /api/admin/assessments`: fetch sorted-descending (capped at
10000), convert timestamps back, return the records. -/
def get_all_assessments (db : DB) : Option (List Assessment) :=
  optMapM docToAssessment (fetchSortedAssessments db)

/-- A spreadsheet cell: `openpyxl` receives either a string or an int. -/
inductive Cell where
  | str (s : String)
  | int (n : Int)
deriving Repr, DecidableEq

/-- The header row `['Date Submitted', 'Name', 'Age', 'Gender', 'Date',
'Mobile', 'Score', 'Result']`. -/
def headerRow : List Cell :=
  [Cell.str "Date Submitted", Cell.str "Name", Cell.str "Age",
    Cell.str "Gender", Cell.str "Date", Cell.str "Mobile",
    Cell.str "Score", Cell.str "Result"]

/-- The first export column: `assessment.get('timestamp', '')` is a string
here (stored timestamps are ISO strings and the `.get` default is `''`),
so the code runs `datetime.fromisoformat(timestamp).strftime(...)`, which
raises on a value that does not parse — in particular on the `''` default
used when the key is absent.  `none` models that failure. -/
def tsCell (o : Option String) : Option String :=
  (fromisoformat (o.getD "")).map strftimeYmdHMS

/-- Column `assessment.get('score', '')`: an int cell when present, the empty
string when absent. -/
def scoreCell (o : Option Int) : Cell :=
  match o with
  | some n => Cell.int n
  | none => Cell.str ""

/-- One data row of the export, in column order; `none` when building the
timestamp column raises. -/
def rowOfDoc (d : AssessmentDoc) : Option (List Cell) :=
  (tsCell d.timestamp).map (fun t =>
    [Cell.str t, Cell.str (d.name.getD ""), Cell.str (d.age.getD ""),
      Cell.str (d.gender.getD ""), Cell.str (d.date.getD ""),
      Cell.str (d.mobile.getD ""), scoreCell d.score,
      Cell.str (d.result.getD "")])

/-- Endpoint `GET /api/admin/assessments/export`: fetch the same sorted capped list,
emit the header row and one row per fetched document.  Only the cell
contents are modelled; fonts, column widths and the xlsx byte format are
cosmetic. -/
def export_assessments (db : DB) : Option (List (List Cell)) :=
  (optMapM rowOfDoc (fetchSortedAssessments db)).map
    (fun rows => headerRow :: rows)

/-! ### Concrete values used by witnesses and counterexamples -/

/-- A sample creation instant. -/
def dtW : DateTime := ⟨2024, 1, 2, 3, 4, 5, 6⟩

/-- A sample assessment record. -/
def aW : Assessment :=
  ⟨"id-1", "alice", "30", "f", "2024-01-02", "555", [⟨1, 2⟩], 2,
    "Ama not present", dtW⟩

/-- The stored document of `aW`. -/
def docW : AssessmentDoc := assessmentDocOf aW

/-- A store holding exactly the document of `aW`. -/
def dbW : DB := ⟨[docW], []⟩

/-- The export row of `docW`. -/
def rowW : List Cell :=
  [Cell.str "2024-01-02 03:04:05", Cell.str "alice", Cell.str "30",
    Cell.str "f", Cell.str "2024-01-02", Cell.str "555", Cell.int 2,
    Cell.str "Ama not present"]

/-- A stored document whose `timestamp` key is absent. -/
def docNoTs : AssessmentDoc :=
  ⟨some "id-2", some "bob", some "40", some "m", some "2024-01-03",
    some "556", some [], some 0, some "Ama not present", none⟩

/-- A store holding 10001 copies of `docW`. -/
def dbBig : DB := ⟨List.replicate 10001 docW, []⟩

/-- A store holding only `docNoTs`. -/
def dbNoTs : DB := ⟨[docNoTs], []⟩

/-! ### Helper lemmas -/

theorem foldl_add_value (l : List Answer) (acc : Int) :
    l.foldl (fun acc answer => acc + answer.value) acc
      = acc + (l.map Answer.value).sum := by
  induction l generalizing acc with
  | nil => simp
  | cons a l ih => simp [List.foldl_cons, ih, add_assoc]

theorem calculate_score_fst (answers : List Answer) :
    (calculate_score_and_result answers).1 = (answers.map Answer.value).sum := by
  simp [calculate_score_and_result, foldl_add_value]

theorem calculate_score_snd (answers : List Answer) :
    (calculate_score_and_result answers).2 =
      if (answers.map Answer.value).sum ≤ 28 then "Ama not present"
      else if (answers.map Answer.value).sum ≤ 42 then "Ama slightly present"
      else "Ama Present" := by
  simp [calculate_score_and_result, foldl_add_value]

theorem parseDigit_decDigit (d : Nat) (h : d < 10) :
    parseDigit (decDigit d) = some d := by
  interval_cases d <;> rfl

theorem parseFixed_padDigits (w : Nat) :
    ∀ (k acc : Nat) (rest : List Char), k < 10 ^ w →
      parseFixed acc w (padDigits w k ++ rest) = some (acc * 10 ^ w + k, rest) := by
  induction w with
  | zero =>
    intro k acc rest hk
    have hk0 : k = 0 := Nat.lt_one_iff.mp hk
    simp [padDigits, parseFixed, hk0]
  | succ w ih =>
    intro k acc rest hk
    have hpow : 0 < 10 ^ w := Nat.pos_pow_of_pos w (by omega)
    have hdiv : k / 10 ^ w < 10 := by
      rw [Nat.div_lt_iff_lt_mul hpow]
      calc k < 10 ^ (w + 1) := hk
        _ = 10 * 10 ^ w := by rw [pow_succ]; ring
    have hmod : k % 10 ^ w < 10 ^ w := Nat.mod_lt _ hpow
    have h1 : parseFixed acc (w + 1) (padDigits (w + 1) k ++ rest)
        = parseFixed (acc * 10 + k / 10 ^ w) w (padDigits w (k % 10 ^ w) ++ rest) := by
      rw [padDigits, List.cons_append, parseFixed, parseDigit_decDigit _ hdiv]
    rw [h1, ih _ _ _ hmod]
    have harith : (acc * 10 + k / 10 ^ w) * 10 ^ w + k % 10 ^ w
        = acc * 10 ^ (w + 1) + k := by
      have hdm : k / 10 ^ w * 10 ^ w + k % 10 ^ w = k := by
        rw [Nat.mul_comm]
        exact Nat.div_add_mod k (10 ^ w)
      calc (acc * 10 + k / 10 ^ w) * 10 ^ w + k % 10 ^ w
          = acc * (10 ^ w * 10) + (k / 10 ^ w * 10 ^ w + k % 10 ^ w) := by ring
        _ = acc * 10 ^ (w + 1) + k := by rw [hdm, pow_succ]
    rw [harith]

theorem parseFixed0_padDigits (w k : Nat) (rest : List Char) (hk : k < 10 ^ w) :
    parseFixed 0 w (padDigits w k ++ rest) = some (k, rest) := by
  rw [parseFixed_padDigits w k 0 rest hk]
  simp

theorem parseFraction_round (us : Nat) (h : us < 10 ^ 6) :
    parseFraction ((if us = 0 then [] else '.' :: padDigits 6 us) ++ offsetChars)
      = some us := by
  by_cases h0 : us = 0
  · subst h0
    simp [parseFraction]
  · rw [if_neg h0]
    have hne : ('.' :: (padDigits 6 us ++ offsetChars)) ≠ offsetChars := by
      intro hc
      have h2 := congrArg (fun l => l.headI) hc
      simp [offsetChars] at h2
    rw [List.cons_append, parseFraction, if_neg hne]
    simp [parseFixed0_padDigits 6 us offsetChars h]

theorem optMapM_length {α β : Type} (f : α → Option β) :
    ∀ (xs : List α) (ys : List β), optMapM f xs = some ys → ys.length = xs.length := by
  intro xs
  induction xs with
  | nil => intro ys h; simp [optMapM] at h; simp [← h]
  | cons x xs ih =>
    intro ys h
    unfold optMapM at h
    cases hf : f x with
    | none => rw [hf] at h; simp at h
    | some y =>
      rw [hf] at h
      cases hrest : optMapM f xs with
      | none => rw [hrest] at h; simp at h
      | some zs =>
        rw [hrest] at h
        simp at h
        subst h
        simp [ih zs hrest]

theorem optMapM_forall₂ {α β : Type} (f : α → Option β) :
    ∀ (xs : List α) (ys : List β), optMapM f xs = some ys →
      List.Forall₂ (fun x y => f x = some y) xs ys := by
  intro xs
  induction xs with
  | nil => intro ys h; simp [optMapM] at h; simp [← h]
  | cons x xs ih =>
    intro ys h
    unfold optMapM at h
    cases hf : f x with
    | none => rw [hf] at h; simp at h
    | some y =>
      rw [hf] at h
      cases hrest : optMapM f xs with
      | none => rw [hrest] at h; simp at h
      | some zs =>
        rw [hrest] at h
        simp at h
        subst h
        exact List.Forall₂.cons hf (ih zs hrest)

theorem optMapM_none_of_mem {α β : Type} (f : α → Option β) (x : α) :
    ∀ (xs : List α), x ∈ xs → f x = none → optMapM f xs = none := by
  intro xs
  induction xs with
  | nil => intro hx; simp at hx
  | cons a xs ih =>
    intro hx hfx
    rcases List.mem_cons.mp hx with h | h
    · subst h
      unfold optMapM
      rw [hfx]
    · unfold optMapM
      rw [ih h hfx]
      cases f a <;> rfl

theorem optMapM_replicate {α β : Type} (f : α → Option β) (x : α) (y : β)
    (hf : f x = some y) :
    ∀ n, optMapM f (List.replicate n x) = some (List.replicate n y) := by
  intro n
  induction n with
  | zero => rfl
  | succ n ih => simp [List.replicate_succ, optMapM, hf, ih]

theorem expectChar_cons (c : Char) (cs : List Char) :
    expectChar c (c :: cs) = some cs := by
  simp [expectChar]

theorem stringDataMk (l : List Char) : (String.mk l).data = l := rfl

theorem fromisoformat_isoformat (t : DateTime)
    (hy : t.year < 10 ^ 4) (hmo : t.month < 10 ^ 2) (hd : t.day < 10 ^ 2)
    (hh : t.hour < 10 ^ 2) (hmi : t.minute < 10 ^ 2) (hs : t.second < 10 ^ 2)
    (hus : t.microsecond < 10 ^ 6) :
    fromisoformat (isoformat t) = some t := by
  unfold fromisoformat isoformat
  simp only [stringDataMk, List.append_assoc, List.cons_append]
  rw [parseFixed0_padDigits 4 t.year _ hy]
  simp only [Option.some_bind]
  rw [expectChar_cons]
  simp only [Option.some_bind]
  rw [parseFixed0_padDigits 2 t.month _ hmo]
  simp only [Option.some_bind]
  rw [expectChar_cons]
  simp only [Option.some_bind]
  rw [parseFixed0_padDigits 2 t.day _ hd]
  simp only [Option.some_bind]
  rw [expectChar_cons]
  simp only [Option.some_bind]
  rw [parseFixed0_padDigits 2 t.hour _ hh]
  simp only [Option.some_bind]
  rw [expectChar_cons]
  simp only [Option.some_bind]
  rw [parseFixed0_padDigits 2 t.minute _ hmi]
  simp only [Option.some_bind]
  rw [expectChar_cons]
  simp only [Option.some_bind]
  rw [parseFixed0_padDigits 2 t.second _ hs]
  simp only [Option.some_bind]
  rw [parseFraction_round t.microsecond hus]
  rfl

theorem parseAnswer_none (a : RawAnswer)
    (h : a.question_id = none ∨ a.value = none) : parseAnswer a = none := by
  rcases a with ⟨q, v⟩
  rcases h with h | h
  · simp only at h
    subst h
    cases v <;> rfl
  · simp only at h
    subst h
    cases q <;> rfl

theorem parseSubmission_some (r : RawSubmission) (s : AssessmentSubmission)
    (h : parseSubmission r = some s) :
    r.name = some s.name ∧ r.age = some s.age ∧ r.gender = some s.gender ∧
    r.date = some s.date ∧ r.mobile = some s.mobile ∧
    ∃ ans, r.answers = some ans ∧ optMapM parseAnswer ans = some s.answers := by
  unfold parseSubmission at h
  split at h
  case _ n a g d m ans hn ha hg hd hm hans =>
    rw [Option.map_eq_some'] at h
    rcases h with ⟨answers, hanswers, hs⟩
    subst hs
    exact ⟨hn, ha, hg, hd, hm, ans, hans, hanswers⟩
  case _ => exact absurd h (by simp)

theorem docToAssessment_fields (d : AssessmentDoc) (a : Assessment)
    (h : docToAssessment d = some a) :
    d.id = some a.id ∧ d.name = some a.name ∧ d.age = some a.age ∧
    d.gender = some a.gender ∧ d.date = some a.date ∧ d.mobile = some a.mobile ∧
    d.answers = some a.answers ∧ d.score = some a.score ∧ d.result = some a.result ∧
    ∃ ts, d.timestamp = some ts ∧ fromisoformat ts = some a.timestamp := by
  unfold docToAssessment at h
  split at h
  case _ i n ag g dt m ans sc res ts hi hn ha hg hd hm hans hsc hres hts =>
    rw [Option.map_eq_some'] at h
    rcases h with ⟨t, ht, hs⟩
    subst hs
    exact ⟨hi, hn, ha, hg, hd, hm, hans, hsc, hres, ts, hts, ht⟩
  case _ => exact absurd h (by simp)

theorem rowOfDoc_eq (d : AssessmentDoc) (r : List Cell)
    (h : rowOfDoc d = some r) :
    ∃ t, tsCell d.timestamp = some t ∧
      r = [Cell.str t, Cell.str (d.name.getD ""), Cell.str (d.age.getD ""),
        Cell.str (d.gender.getD ""), Cell.str (d.date.getD ""),
        Cell.str (d.mobile.getD ""), scoreCell d.score,
        Cell.str (d.result.getD "")] := by
  unfold rowOfDoc at h
  rw [Option.map_eq_some'] at h
  rcases h with ⟨t, ht, hr⟩
  exact ⟨t, ht, hr.symm⟩

theorem insertionSort_replicate (n : Nat) (d : AssessmentDoc) :
    List.insertionSort tsGe (List.replicate n d) = List.replicate n d := by
  rw [List.eq_replicate_iff]
  constructor
  · rw [List.length_insertionSort, List.length_replicate]
  · intro b hb
    rw [List.mem_insertionSort] at hb
    exact List.eq_of_mem_replicate hb

/-! ### Claim theorems -/

/-- C1: for every answer sequence the scoring function returns the plain
sum of the answer values (no clamping, weighting or normalization), and
the label is chosen by inclusive thresholds: total ≤ 28 gives "Ama not
present", 28 < total ≤ 42 gives "Ama slightly present", total > 42 gives
"Ama Present"; in particular totals 28, 29, 42 and 43 map to the stated
labels. -/
theorem scoring_total_and_thresholds (answers : List Answer) :
    (calculate_score_and_result answers).1 = (answers.map Answer.value).sum ∧
    ((answers.map Answer.value).sum ≤ 28 →
      (calculate_score_and_result answers).2 = "Ama not present") ∧
    (28 < (answers.map Answer.value).sum → (answers.map Answer.value).sum ≤ 42 →
      (calculate_score_and_result answers).2 = "Ama slightly present") ∧
    (42 < (answers.map Answer.value).sum →
      (calculate_score_and_result answers).2 = "Ama Present") ∧
    calculate_score_and_result (List.replicate 14 ⟨0, 2⟩) = (28, "Ama not present") ∧
    calculate_score_and_result (⟨0, 1⟩ :: List.replicate 14 ⟨0, 2⟩)
      = (29, "Ama slightly present") ∧
    calculate_score_and_result (List.replicate 14 ⟨0, 3⟩)
      = (42, "Ama slightly present") ∧
    calculate_score_and_result (⟨0, 1⟩ :: List.replicate 14 ⟨0, 3⟩)
      = (43, "Ama Present") := by
  refine ⟨calculate_score_fst answers, ?_, ?_, ?_, by decide, by decide,
    by decide, by decide⟩
  · intro h
    rw [calculate_score_snd, if_pos h]
  · intro h1 h2
    rw [calculate_score_snd, if_neg (by omega), if_pos h2]
  · intro h
    rw [calculate_score_snd, if_neg (by omega), if_neg (by omega)]

/-- Witness for C1 at a concrete input: a single answer of value 30 lies
strictly between the thresholds and is labelled "Ama slightly present". -/
theorem scoring_total_and_thresholds_witness :
    (28 < (([⟨1, 30⟩] : List Answer).map Answer.value).sum ∧
      (([⟨1, 30⟩] : List Answer).map Answer.value).sum ≤ 42) ∧
    (calculate_score_and_result [⟨1, 30⟩]).2 = "Ama slightly present" :=
  ⟨by decide,
    (scoring_total_and_thresholds [⟨1, 30⟩]).2.2.1 (by decide) (by decide)⟩

/-- C2: on a valid submission, `create_assessment` returns a record whose
id and timestamp are the server-generated values (the submission type
carries neither field, so they can never come from the client), whose
score and result are the Scoring Engine applied to the submitted answers,
and whose other fields copy the submission; it performs exactly one store
write, appending that record's document to the `assessments` collection
and leaving `contact_requests` untouched. -/
theorem create_assessment_spec (submission : AssessmentSubmission)
    (freshId : String) (now : DateTime) (db : DB) :
    (create_assessment submission freshId now db).1.id = freshId ∧
    (create_assessment submission freshId now db).1.timestamp = now ∧
    (create_assessment submission freshId now db).1.name = submission.name ∧
    (create_assessment submission freshId now db).1.age = submission.age ∧
    (create_assessment submission freshId now db).1.gender = submission.gender ∧
    (create_assessment submission freshId now db).1.date = submission.date ∧
    (create_assessment submission freshId now db).1.mobile = submission.mobile ∧
    (create_assessment submission freshId now db).1.answers = submission.answers ∧
    (create_assessment submission freshId now db).1.score
      = (calculate_score_and_result submission.answers).1 ∧
    (create_assessment submission freshId now db).1.result
      = (calculate_score_and_result submission.answers).2 ∧
    (create_assessment submission freshId now db).2.assessments
      = db.assessments
        ++ [assessmentDocOf (create_assessment submission freshId now db).1] ∧
    (create_assessment submission freshId now db).2.contact_requests
      = db.contact_requests :=
  ⟨rfl, rfl, rfl, rfl, rfl, rfl, rfl, rfl, rfl, rfl, rfl, rfl⟩

/-- C6: `admin_login` succeeds exactly when both supplied strings equal
the fixed credentials (string equality is exact and case-sensitive); any
mismatch yields the 401 error, and no third outcome exists. -/
theorem admin_login_spec (login : AdminLogin) :
    (admin_login login = ApiResult.ok ⟨true, "Login successful"⟩ ↔
      login.username = ADMIN_USERNAME ∧ login.password = ADMIN_PASSWORD) ∧
    (¬(login.username = ADMIN_USERNAME ∧ login.password = ADMIN_PASSWORD) →
      admin_login login = ApiResult.err 401 "Invalid credentials") ∧
    (admin_login login = ApiResult.ok ⟨true, "Login successful"⟩ ∨
      admin_login login = ApiResult.err 401 "Invalid credentials") := by
  by_cases h : login.username = ADMIN_USERNAME ∧ login.password = ADMIN_PASSWORD
  · have he : admin_login login = ApiResult.ok ⟨true, "Login successful"⟩ := by
      unfold admin_login
      rw [if_pos h]
    exact ⟨⟨fun _ => h, fun _ => he⟩, fun hn => absurd h hn, Or.inl he⟩
  · have he : admin_login login = ApiResult.err 401 "Invalid credentials" := by
      unfold admin_login
      rw [if_neg h]
    refine ⟨⟨fun hok => ?_, fun hc => absurd hc h⟩, fun _ => he, Or.inr he⟩
    rw [he] at hok
    simp at hok

/-- Witness for C6: the fixed credentials log in; a password differing
only in case is rejected with 401. -/
theorem admin_login_spec_witness :
    admin_login ⟨"admin_kamch", "admin_kamch123"⟩
      = ApiResult.ok ⟨true, "Login successful"⟩ ∧
    admin_login ⟨"admin_kamch", "Admin_kamch123"⟩
      = ApiResult.err 401 "Invalid credentials" :=
  ⟨(admin_login_spec ⟨"admin_kamch", "admin_kamch123"⟩).1.2 ⟨rfl, rfl⟩,
    (admin_login_spec ⟨"admin_kamch", "Admin_kamch123"⟩).2.1 (by decide)⟩

/-- C9: the scoring function is deterministic — two invocations on equal
answer sequences return equal (total, result) pairs.  (It is a total pure
function of its argument in this embedding, mirroring that the source
function touches no state and performs no I/O.) -/
theorem scoring_deterministic (a b : List Answer) (h : a = b) :
    calculate_score_and_result a = calculate_score_and_result b := by
  rw [h]

/-- Witness for C9 at a concrete pair of equal inputs. -/
theorem scoring_deterministic_witness :
    ([⟨1, 2⟩] : List Answer) = [⟨1, 2⟩] ∧
    calculate_score_and_result [⟨1, 2⟩] = calculate_score_and_result [⟨1, 2⟩] :=
  ⟨rfl, scoring_deterministic [⟨1, 2⟩] [⟨1, 2⟩] rfl⟩

/-- C10: a submission whose answers list is empty passes validation (list
non-emptiness is nowhere enforced), scores total 0 with result "Ama not
present", and the record is persisted with score 0. -/
theorem empty_answers_accepted (name age gender date mobile freshId : String)
    (now : DateTime) (db : DB) :
    parseSubmission ⟨some name, some age, some gender, some date, some mobile, some []⟩
      = some ⟨name, age, gender, date, mobile, []⟩ ∧
    calculate_score_and_result [] = (0, "Ama not present") ∧
    (handleCreateAssessment
        ⟨some name, some age, some gender, some date, some mobile, some []⟩
        freshId now db).1
      = ApiResult.ok
          ⟨freshId, name, age, gender, date, mobile, [], 0, "Ama not present", now⟩ ∧
    (handleCreateAssessment
        ⟨some name, some age, some gender, some date, some mobile, some []⟩
        freshId now db).2.assessments
      = db.assessments
        ++ [assessmentDocOf
            ⟨freshId, name, age, gender, date, mobile, [], 0, "Ama not present", now⟩] :=
  ⟨rfl, by decide, rfl, rfl⟩

/-- Every document delivered by the capped sorted fetch is a stored
document. -/
theorem fetchSorted_mem (db : DB) (d : AssessmentDoc)
    (hd : d ∈ fetchSortedAssessments db) : d ∈ db.assessments := by
  unfold fetchSortedAssessments at hd
  have hsub := (List.take_sublist 10000 (List.insertionSort tsGe db.assessments)).subset hd
  exact (List.perm_insertionSort tsGe db.assessments).mem_iff.mp hsub

/-- C3: a submission payload with a required field missing (or mistyped,
which pydantic rejects identically) is answered with HTTP 422 and the
store is left unchanged. -/
theorem submission_validation_422 (raw : RawSubmission) (freshId : String)
    (now : DateTime) (db : DB)
    (hmiss : raw.name = none ∨ raw.age = none ∨ raw.gender = none ∨
      raw.date = none ∨ raw.mobile = none ∨ raw.answers = none ∨
      (∃ ans, raw.answers = some ans ∧
        ∃ a ∈ ans, a.question_id = none ∨ a.value = none)) :
    handleCreateAssessment raw freshId now db
      = (ApiResult.err 422 "validation error", db) := by
  have hnone : parseSubmission raw = none := by
    cases hp : parseSubmission raw with
    | none => rfl
    | some sub =>
      exfalso
      obtain ⟨hn, ha, hg, hd, hm, ans, hans, hmap⟩ := parseSubmission_some raw sub hp
      rcases hmiss with h | h | h | h | h | h | ⟨ans2, hans2, a, hmem, hbad⟩
      · rw [h] at hn; exact Option.noConfusion hn
      · rw [h] at ha; exact Option.noConfusion ha
      · rw [h] at hg; exact Option.noConfusion hg
      · rw [h] at hd; exact Option.noConfusion hd
      · rw [h] at hm; exact Option.noConfusion hm
      · rw [h] at hans; exact Option.noConfusion hans
      · rw [hans] at hans2
        have hae : ans = ans2 := Option.some.inj hans2
        subst hae
        rw [optMapM_none_of_mem parseAnswer a ans hmem (parseAnswer_none a hbad)]
          at hmap
        exact Option.noConfusion hmap
  unfold handleCreateAssessment
  rw [hnone]

/-- Witness for C3: a payload missing `name` is rejected with 422 and the
store `dbW` is untouched. -/
theorem submission_validation_422_witness :
    (⟨none, some "30", some "f", some "2024-01-02", some "555", some []⟩
        : RawSubmission).name = none ∧
    handleCreateAssessment
        ⟨none, some "30", some "f", some "2024-01-02", some "555", some []⟩
        "id-w" dtW dbW
      = (ApiResult.err 422 "validation error", dbW) :=
  ⟨rfl, submission_validation_422 _ "id-w" dtW dbW (Or.inl rfl)⟩

/-- C7: a contact payload with `name`, `mobile` and `message` present
(email optional) yields a record with the server-generated id and
timestamp, appended to `contact_requests` and returned; a payload missing
a required field is answered 422 and writes nothing. -/
theorem contact_spec (raw : RawContact) (freshId : String) (now : DateTime)
    (db : DB) :
    (∀ n m msg, raw.name = some n → raw.mobile = some m → raw.message = some msg →
      handleCreateContact raw freshId now db
        = (ApiResult.ok ⟨freshId, n, m, raw.email, msg, now⟩,
            ⟨db.assessments,
              db.contact_requests
                ++ [contactDocOf ⟨freshId, n, m, raw.email, msg, now⟩]⟩)) ∧
    ((raw.name = none ∨ raw.mobile = none ∨ raw.message = none) →
      handleCreateContact raw freshId now db
        = (ApiResult.err 422 "validation error", db)) := by
  constructor
  · intro n m msg hn hm hmsg
    have hp : parseContact raw = some ⟨n, m, raw.email, msg⟩ := by
      unfold parseContact
      rw [hn, hm, hmsg]
    unfold handleCreateContact
    rw [hp]
    rfl
  · intro h
    have hp : parseContact raw = none := by
      rcases raw with ⟨n, m, e, msg⟩
      rcases h with h | h | h
      · simp only at h
        subst h
        cases m <;> cases msg <;> rfl
      · simp only at h
        subst h
        cases n <;> cases msg <;> rfl
      · simp only at h
        subst h
        cases n <;> cases m <;> rfl
    unfold handleCreateContact
    rw [hp]

/-- Witness for C7: a complete contact payload (without the optional
email) is created and persisted; one missing `message` is rejected. -/
theorem contact_spec_witness :
    handleCreateContact ⟨some "carol", some "777", none, some "call me"⟩
        "id-c" dtW dbW
      = (ApiResult.ok ⟨"id-c", "carol", "777", none, "call me", dtW⟩,
          ⟨dbW.assessments,
            dbW.contact_requests
              ++ [contactDocOf ⟨"id-c", "carol", "777", none, "call me", dtW⟩]⟩) ∧
    handleCreateContact ⟨some "carol", some "777", none, none⟩ "id-c" dtW dbW
      = (ApiResult.err 422 "validation error", dbW) :=
  ⟨(contact_spec ⟨some "carol", some "777", none, some "call me"⟩ "id-c" dtW dbW).1
      "carol" "777" "call me" rfl rfl rfl,
    (contact_spec ⟨some "carol", some "777", none, none⟩ "id-c" dtW dbW).2
      (Or.inr (Or.inr rfl))⟩

/-- Witness for C8 at the concrete instant `dtW`. -/
theorem fromisoformat_isoformat_witness :
    (dtW.year < 10 ^ 4 ∧ dtW.month < 10 ^ 2 ∧ dtW.day < 10 ^ 2 ∧
      dtW.hour < 10 ^ 2 ∧ dtW.minute < 10 ^ 2 ∧ dtW.second < 10 ^ 2 ∧
      dtW.microsecond < 10 ^ 6) ∧
    fromisoformat (isoformat dtW) = some dtW :=
  ⟨by decide,
    fromisoformat_isoformat dtW (by decide) (by decide) (by decide) (by decide)
      (by decide) (by decide) (by decide)⟩

/-- C4: the admin listing returns the stored documents sorted by stored
timestamp non-increasing (newest first), capped at 10000 (all of them when
the store holds at most 10000), converted positionally into records whose
score and result are exactly the stored values — no recomputation. -/
theorem get_all_assessments_spec (db : DB) (out : List Assessment)
    (h : get_all_assessments db = some out) :
    out.length = min 10000 db.assessments.length ∧
    List.Sorted tsGe (fetchSortedAssessments db) ∧
    (∀ d ∈ fetchSortedAssessments db, d ∈ db.assessments) ∧
    (db.assessments.length ≤ 10000 →
      (fetchSortedAssessments db).Perm db.assessments) ∧
    List.Forall₂
      (fun d a => docToAssessment d = some a ∧ d.score = some a.score ∧
        d.result = some a.result)
      (fetchSortedAssessments db) out := by
  unfold get_all_assessments at h
  have hlen : out.length = (fetchSortedAssessments db).length :=
    optMapM_length _ _ _ h
  have hfl : (fetchSortedAssessments db).length = min 10000 db.assessments.length := by
    unfold fetchSortedAssessments
    rw [List.length_take, List.length_insertionSort]
  refine ⟨by rw [hlen, hfl], ?_, fetchSorted_mem db, ?_, ?_⟩
  · exact List.Pairwise.sublist (List.take_sublist _ _)
      (List.sorted_insertionSort tsGe db.assessments)
  · intro hle
    unfold fetchSortedAssessments
    rw [List.take_of_length_le (by rw [List.length_insertionSort]; exact hle)]
    exact List.perm_insertionSort tsGe db.assessments
  · refine (optMapM_forall₂ _ _ _ h).imp ?_
    intro d a hda
    have hf := docToAssessment_fields d a hda
    exact ⟨hda, hf.2.2.2.2.2.2.2.1, hf.2.2.2.2.2.2.2.2.1⟩

/-- Witness for C4 on the one-record store `dbW`. -/
theorem get_all_assessments_spec_witness :
    get_all_assessments dbW = some [aW] ∧
    (([aW] : List Assessment).length = min 10000 dbW.assessments.length ∧
      List.Sorted tsGe (fetchSortedAssessments dbW) ∧
      (∀ d ∈ fetchSortedAssessments dbW, d ∈ dbW.assessments) ∧
      (dbW.assessments.length ≤ 10000 →
        (fetchSortedAssessments dbW).Perm dbW.assessments) ∧
      List.Forall₂
        (fun d a => docToAssessment d = some a ∧ d.score = some a.score ∧
          d.result = some a.result)
        (fetchSortedAssessments dbW) [aW]) :=
  ⟨by decide, get_all_assessments_spec dbW [aW] (by decide)⟩

/-- C5 counterexample: with 10001 stored records the export emits 10001
rows, not 10002 (one header plus one row per stored record as the claim
demands); and a stored record whose timestamp key is absent makes the
export fail instead of rendering an empty string (`.get` defaults the
missing key to `''`, which `datetime.fromisoformat` then rejects). -/
theorem export_assessments_cex :
    dbBig.assessments.length = 10001 ∧
    export_assessments dbBig = some (headerRow :: List.replicate 10000 rowW) ∧
    (headerRow :: List.replicate 10000 rowW).length = 10001 ∧
    export_assessments dbNoTs = none := by
  have h1 : dbBig.assessments.length = 10001 := by
    rw [show dbBig.assessments = List.replicate 10001 docW from rfl,
      List.length_replicate]
  have h3 : (headerRow :: List.replicate 10000 rowW).length = 10001 := by
    rw [List.length_cons, List.length_replicate]
  have h2 : export_assessments dbBig
      = some (headerRow :: List.replicate 10000 rowW) := by
    unfold export_assessments fetchSortedAssessments
    rw [show dbBig.assessments = List.replicate 10001 docW from rfl]
    rw [insertionSort_replicate, List.take_replicate]
    rw [show min 10000 10001 = 10000 from by omega]
    rw [optMapM_replicate rowOfDoc docW rowW (by decide) 10000]
    rfl
  exact ⟨h1, h2, h3, by decide⟩

/-- C5 (amended): the export is one header row plus one row per fetched
document — the fetch being capped at 10000 — with columns in order
(timestamp formatted `YYYY-MM-DD HH:MM:SS`, name, age, gender, date,
mobile, score, result); score and result cells are the stored values, a
missing field other than the timestamp renders as the empty string, and a
missing or unparseable timestamp makes the export fail. -/
theorem export_assessments_amended (db : DB) (rows : List (List Cell))
    (h : export_assessments db = some rows) :
    ∃ dataRows, rows = headerRow :: dataRows ∧
      dataRows.length = min 10000 db.assessments.length ∧
      (∀ d ∈ fetchSortedAssessments db, d ∈ db.assessments) ∧
      List.Forall₂
        (fun d r => ∃ t, tsCell d.timestamp = some t ∧
          r = [Cell.str t, Cell.str (d.name.getD ""), Cell.str (d.age.getD ""),
            Cell.str (d.gender.getD ""), Cell.str (d.date.getD ""),
            Cell.str (d.mobile.getD ""), scoreCell d.score,
            Cell.str (d.result.getD "")])
        (fetchSortedAssessments db) dataRows := by
  unfold export_assessments at h
  rw [Option.map_eq_some'] at h
  rcases h with ⟨dataRows, hmap, hrows⟩
  refine ⟨dataRows, hrows.symm, ?_, fetchSorted_mem db, ?_⟩
  · rw [optMapM_length _ _ _ hmap]
    unfold fetchSortedAssessments
    rw [List.length_take, List.length_insertionSort]
  · exact (optMapM_forall₂ _ _ _ hmap).imp (fun d r hdr => rowOfDoc_eq d r hdr)

/-- Witness for the amended C5 on the one-record store `dbW`. -/
theorem export_assessments_amended_witness :
    export_assessments dbW = some [headerRow, rowW] ∧
    (∃ dataRows, ([headerRow, rowW] : List (List Cell)) = headerRow :: dataRows ∧
      dataRows.length = min 10000 dbW.assessments.length ∧
      (∀ d ∈ fetchSortedAssessments dbW, d ∈ dbW.assessments) ∧
      List.Forall₂
        (fun d r => ∃ t, tsCell d.timestamp = some t ∧
          r = [Cell.str t, Cell.str (d.name.getD ""), Cell.str (d.age.getD ""),
            Cell.str (d.gender.getD ""), Cell.str (d.date.getD ""),
            Cell.str (d.mobile.getD ""), scoreCell d.score,
            Cell.str (d.result.getD "")])
        (fetchSortedAssessments dbW) dataRows) :=
  ⟨by decide, export_assessments_amended dbW [headerRow, rowW] (by decide)⟩
